import Mathlib

set_option maxRecDepth 4000

/-!
Verification of the inditex_tracker scraping subsystem.

This file gives a shallow embedding of the scraper core of the repository:
the text normalizers (src/lib/scraper/utils.ts), the Zara site adapter
(src/lib/scraper/stores/zara.ts), the navigation classifier and context
lifecycle (src/lib/scraper/browser.ts), the storage upsert layer
(src/lib/storage/db/utils.ts products CRUD, mirrored by
src/lib/storage/json-store.ts), and the scrape orchestrator
(src/lib/scraper/index.ts).

Conventions of the embedding:
* JavaScript numbers are modelled as rationals.
* JavaScript truthiness on strings/numbers is modelled explicitly
  (empty string and zero are falsy).
* Effectful steps (browser launch, navigation, page content) are supplied
  by an environment record; steps that can throw are `Except String`.
* The HTML document is abstracted as the outcome of the CSS selector
  queries the Zara parser performs (a map from selector to matched
  elements plus structured views of the size-selector nodes).
* All definitions are executable; string primitives are re-implemented on
  `List Char` so that concrete witnesses evaluate inside the kernel.
-/

/-- Fold a digit list (already known to be decimal digits) to a natural. -/
def digitsToNat (ds : List Char) : Nat :=
  ds.foldl (fun acc c => acc * 10 + (c.toNat - 48)) 0

/-- `pat.isPrefixOf l` on strings, via char lists. -/
def strIsPrefixOfL (pat l : List Char) : Bool :=
  List.isPrefixOf pat l

/-- Substring test on char lists: models JavaScript `String.includes`. -/
def containsSub (pat : List Char) : List Char → Bool
  | [] => pat.isEmpty
  | c :: rest => strIsPrefixOfL pat (c :: rest) || containsSub pat rest

/-- Models JavaScript `s.includes(pat)` for nonempty `pat`. -/
def strContains (s pat : String) : Bool :=
  containsSub pat.toList s.toList

/-- Lowercasing, via char lists (models JS `toLowerCase` on ASCII). -/
def strToLower (s : String) : String :=
  String.mk (s.toList.map Char.toLower)

/-- Models JavaScript `String.trim` (whitespace at both ends removed). -/
def trimChars (s : String) : String :=
  String.mk (((s.toList.dropWhile Char.isWhitespace).reverse.dropWhile
    Char.isWhitespace).reverse)

/-- Splitting worker: `fuel` bounds the recursion; it is called with more
fuel than characters, so the fuel never runs out on the real argument. -/
def splitOnListGo (sep : List Char) : Nat → List Char → List Char → List (List Char)
  | _, acc, [] => [acc.reverse]
  | 0, acc, rest => [(acc.reverse ++ rest)]
  | fuel + 1, acc, c :: rest =>
    if strIsPrefixOfL sep (c :: rest) then
      acc.reverse :: splitOnListGo sep fuel [] ((c :: rest).drop sep.length)
    else
      splitOnListGo sep fuel (c :: acc) rest

/-- Models JavaScript `s.split(sep)` for a nonempty separator string
(also the semantics of `String.splitOn`). -/
def strSplitOn (s sep : String) : List String :=
  (splitOnListGo sep.toList (s.toList.length + 1) [] s.toList).map String.mk

/-- Exponent digits after the `e`, as in the JS float grammar: an optional
sign then at least one digit; `none` when malformed (the exponent is then
ignored, as `parseFloat` keeps the longest valid literal prefix). -/
def expDigits (l : List Char) : Option Int :=
  match l with
  | '+' :: r =>
    let ds := r.takeWhile Char.isDigit
    if ds.isEmpty then none else some (digitsToNat ds)
  | '-' :: r =>
    let ds := r.takeWhile Char.isDigit
    if ds.isEmpty then none else some (-(digitsToNat ds : Int))
  | r =>
    let ds := r.takeWhile Char.isDigit
    if ds.isEmpty then none else some (digitsToNat ds)

/-- Models JavaScript `parseFloat`: parses the longest prefix of the form
`[+-]? digits [. digits] [e [+-] digits]` and returns `none` for NaN
(no digits at all). Decimal values are exact rationals here. -/
def jsParseFloat (s : String) : Option ℚ :=
  let l := s.toList
  let signAndRest : Bool × List Char :=
    match l with
    | '+' :: r => (false, r)
    | '-' :: r => (true, r)
    | _ => (false, l)
  let l1 := signAndRest.2
  let intDs := l1.takeWhile Char.isDigit
  let l2 := l1.dropWhile Char.isDigit
  let fracAndRest : List Char × List Char :=
    match l2 with
    | '.' :: r => (r.takeWhile Char.isDigit, r.dropWhile Char.isDigit)
    | _ => ([], l2)
  let fracDs := fracAndRest.1
  if intDs.isEmpty && fracDs.isEmpty then none
  else
    let mantNum : Nat := digitsToNat (intDs ++ fracDs)
    let e : Int :=
      match fracAndRest.2 with
      | 'e' :: r => (expDigits r).getD 0
      | 'E' :: r => (expDigits r).getD 0
      | _ => 0
    let signedNum : Int :=
      if signAndRest.1 then -(Int.ofNat mantNum) else Int.ofNat mantNum
    let scaled : ℚ :=
      if 0 ≤ e then mkRat (signedNum * Int.ofNat (10 ^ e.toNat)) (10 ^ fracDs.length)
      else mkRat signedNum (10 ^ fracDs.length * 10 ^ (-e).toNat)
    some scaled

/-- Models the regex replace `/[€$£]/g` with the empty string. -/
def stripCurrencySymbols (l : List Char) : List Char :=
  l.filter (fun c => !(c == '€' || c == '$' || c == '£'))

/-- One case-insensitive alternative of the regex `/EUR|USD|GBP/gi`. -/
def isCurrencyWord (a b c : Char) : Bool :=
  let w := [a.toLower, b.toLower, c.toLower]
  w == ['e', 'u', 'r'] || w == ['u', 's', 'd'] || w == ['g', 'b', 'p']

/-- Models the global case-insensitive replace of `EUR|USD|GBP` by the
empty string: a left-to-right, non-overlapping scan. -/
def stripCurrencyWordsGo : Nat → List Char → List Char
  | _, [] => []
  | 0, l => l
  | fuel + 1, c1 :: rest1 =>
    match rest1 with
    | c2 :: c3 :: rest =>
      if isCurrencyWord c1 c2 c3 then stripCurrencyWordsGo fuel rest
      else c1 :: stripCurrencyWordsGo fuel rest1
    | _ => c1 :: stripCurrencyWordsGo fuel rest1

/-- Entry point for the currency-word replace; the fuel equals the input
length, which the scan never exhausts. -/
def stripCurrencyWords (l : List Char) : List Char :=
  stripCurrencyWordsGo l.length l

/-- Three decimal digits exactly: one `(\.\d{3})` group body. -/
def isThreeDigits (s : String) : Bool :=
  s.length == 3 && s.toList.all Char.isDigit

/-- Models the test of `/^\d{1,3}(\.\d{3})*,\d{2}$/` (European thousands
separator format such as `1.234,56`). -/
def euroThousandsFormat (s : String) : Bool :=
  match strSplitOn s "," with
  | [ip, dp] =>
    (dp.length == 2 && dp.toList.all Char.isDigit) &&
    (match strSplitOn ip "." with
     | [] => false
     | g0 :: gs =>
       (decide (1 ≤ g0.length) && decide (g0.length ≤ 3) &&
        g0.toList.all Char.isDigit) && gs.all isThreeDigits)
  | _ => false

/-- Models the test of `/,\d{2}$/` (simple European decimal, `19,99`). -/
def endsCommaTwoDigits (s : String) : Bool :=
  match s.toList.reverse with
  | d1 :: d2 :: c :: _ => d1.isDigit && d2.isDigit && c == ','
  | _ => false

/-- Models `String.replace(',', '.')`: only the first comma is replaced. -/
def replaceFirstComma : List Char → List Char
  | [] => []
  | c :: rest => if c == ',' then '.' :: rest else c :: replaceFirstComma rest

/-- The cleaning pipeline of `parsePrice` in src/lib/scraper/utils.ts:
strip currency symbols and currency words, strip whitespace (after which
`trim` is a no-op), then normalize the decimal separator. -/
def priceCleaned (s : String) : String :=
  let l1 := stripCurrencyWords (stripCurrencySymbols s.toList)
  let cleaned := String.mk (l1.filter (fun c => !c.isWhitespace))
  if euroThousandsFormat cleaned then
    String.mk (replaceFirstComma (cleaned.toList.filter (fun c => c != '.')))
  else if endsCommaTwoDigits cleaned then
    String.mk (replaceFirstComma cleaned.toList)
  else cleaned

/-- `parsePrice` of src/lib/scraper/utils.ts lines 23-44. The argument is
`Option String` to model `string | null | undefined`; the empty string is
falsy and short-circuits to `null`, and a NaN parse yields `null`. -/
def parsePrice (priceString : Option String) : Option ℚ :=
  match priceString with
  | none => none
  | some s => if s = "" then none else jsParseFloat (priceCleaned s)

/-- First match of the regex `-?\d+`, as `parseInt` would read it: the
scan advances one character at a time; a `-` matches only when directly
followed by a digit. -/
def firstIntMatch : List Char → Option Int
  | [] => none
  | c :: rest =>
    if c.isDigit then some ((digitsToNat (c :: rest.takeWhile Char.isDigit) : Nat) : Int)
    else if c == '-' then
      match rest with
      | [] => none
      | d :: _ =>
        if d.isDigit then some (-(digitsToNat (rest.takeWhile Char.isDigit) : Nat))
        else firstIntMatch rest
    else firstIntMatch rest

/-- `parseDiscount` of src/lib/scraper/utils.ts lines 52-60: absolute
value of the first integer run, accepted only in the range (0, 100]. -/
def parseDiscount (discountString : Option String) : Option Int :=
  match discountString with
  | none => none
  | some s =>
    if s = "" then none
    else
      match firstIntMatch s.toList with
      | none => none
      | some n =>
        let d := n.natAbs
        if 0 < d ∧ d ≤ 100 then some (d : Int) else none

/-- The retailer brands of src/types (`Brand`). -/
inductive Brand
  | zara
  | bershka
  | pullandbear
  | massimodutti
deriving DecidableEq, Repr

/-- The storage-facing name of a brand. -/
def Brand.tag : Brand → String
  | .zara => "zara"
  | .bershka => "bershka"
  | .pullandbear => "pullandbear"
  | .massimodutti => "massimodutti"

/-- `detectStore` of src/lib/scraper/utils.ts lines 67-76. -/
def detectStore (url : String) : Option Brand :=
  let lowerUrl := strToLower url
  if strContains lowerUrl "zara.com" then some .zara
  else if strContains lowerUrl "bershka.com" then some .bershka
  else if strContains lowerUrl "pullandbear.com" then some .pullandbear
  else if strContains lowerUrl "massimodutti.com" then some .massimodutti
  else none

/-- Take characters until one of the stop characters. -/
def takeUntil (stops : List Char) (l : List Char) : List Char :=
  l.takeWhile (fun c => !stops.contains c)

/-- Models the `new URL(url)` constructor as far as the code consumes it:
`none` models the constructor throwing (no `scheme://`), otherwise the
pair (hostname lowercased and without userinfo/port, pathname without
query or fragment). -/
def urlHostPath (url : String) : Option (String × String) :=
  match strSplitOn url "://" with
  | scheme :: rest0 :: rests =>
    let after := String.intercalate "://" (rest0 :: rests)
    match scheme.toList with
    | [] => none
    | c0 :: cs =>
      if c0.isAlpha && cs.all (fun c => c.isAlphanum || c == '+' || c == '-' || c == '.') then
        let al := after.toList
        let authority := takeUntil ['/', '?', '#'] al
        let restPath := al.drop authority.length
        let path := takeUntil ['?', '#'] restPath
        let hostPort := ((strSplitOn (String.mk authority) "@").getLast?).getD ""
        let hostname := ((strSplitOn hostPort ":").headD "")
        some (strToLower hostname, if path.isEmpty then "/" else String.mk path)
      else none
  | _ => none

/-- At least one digit then `.html`: the tail of a `-p\d+\.html` match. -/
def digitsThenHtml (l : List Char) : Bool :=
  let ds := l.takeWhile Char.isDigit
  !ds.isEmpty && strIsPrefixOfL ".html".toList (l.dropWhile Char.isDigit)

/-- Models the test of `-p\d+\.html` against the pathname. -/
def zaraPathOk (path : String) : Bool :=
  match strSplitOn path "-p" with
  | [] => false
  | _ :: pieces => pieces.any (fun p => digitsThenHtml p.toList)

/-- `isValidZaraUrl` of src/lib/scraper/stores/zara.ts lines 260-270:
hostname contains `zara.com` and pathname matches `-p\d+\.html`;
a URL the constructor rejects gives `false`. -/
def isValidZaraUrl (url : String) : Bool :=
  match urlHostPath url with
  | none => false
  | some hp => strContains hp.1 "zara.com" && zaraPathOk hp.2

example : parsePrice (some "19,99 EUR") = some (mkRat 1999 100) := by decide
example : parsePrice (some "€19.99") = some (mkRat 1999 100) := by decide
example : parsePrice (some "1.234,56") = some (mkRat 123456 100) := by decide
example : parseDiscount (some "-20%") = some 20 := by decide
example : parseDiscount (some "150%") = none := by decide
example : detectStore "https://www.zara.com/pt/x-p123.html" = some Brand.zara := by decide
example : isValidZaraUrl "https://www.zara.com/pt/casaco-p02753752.html" = true := by decide
example : isValidZaraUrl "https://www.zara.com/pt/casaco" = false := by decide
example : isValidZaraUrl "not a url" = false := by decide

/-- A matched DOM element, reduced to what the parser reads: its text
content (`.text()`, raw, untrimmed). -/
structure Elem where
  text : String
deriving DecidableEq, Repr

/-- One `<li>` matched by `.size-selector-sizes > li` (the primary size
selector), reduced to the queries `extractSizes` performs on it:
the label text found inside its button, the button's `data-qa-action`
attribute (empty string when absent, as `attr(...) || ''`), and the three
CSS classes the fallback heuristic consults. -/
structure SizeItem where
  labelText : String
  action : String
  disabledClass : Bool
  unavailableClass : Bool
  enabledClass : Bool
deriving DecidableEq, Repr

/-- One element matched by the fallback size selectors
(`.size-selector-list__item, [data-qa="size-selector-item"]`), reduced to
the queries performed on it: the two label candidates, the raw item text
(for the split-on-newline fallback), and the button's `data-qa-action`. -/
structure FallbackSizeItem where
  mainLabelText : String
  qualifierLabelText : String
  itemText : String
  action : String
deriving DecidableEq, Repr

/-- An `<img>` element, reduced to the three attributes consulted. -/
structure Img where
  src : Option String
  dataSrc : Option String
  dataLazy : Option String
deriving DecidableEq, Repr

/-- The cheerio document, abstracted as the outcome of the CSS selector
queries the Zara parser performs: `query` maps a selector string to its
matched elements; the size-selector structure is exposed as structured
views (primary items and fallback items); `images` maps each image
selector to its matches. -/
structure ZaraDoc where
  query : String → List Elem
  sizeItems : List SizeItem
  fallbackSizeItems : List FallbackSizeItem
  images : String → List Img

namespace SELECTORS

/-- `SELECTORS.name` of src/lib/scraper/stores/zara.ts. -/
def name : List String :=
  [".product-detail-info__header-name",
   ".product-detail-info__name",
   "h1[class*=\x22product-detail\x22]",
   "[data-qa=\x22product-name\x22]"]

/-- `SELECTORS.currentPrice`. -/
def currentPrice : List String :=
  [".price-current__amount",
   ".price__amount--current",
   "[data-qa=\x22product-price-current\x22]",
   ".money-amount__main"]

/-- `SELECTORS.oldPrice`. -/
def oldPrice : List String :=
  [".price-old__amount",
   ".price__amount--old",
   "[data-qa=\x22product-price-old\x22]",
   ".price-old .money-amount__main"]

/-- `SELECTORS.discount`. -/
def discount : List String :=
  [".price-current__discount-percentage",
   ".price__discount",
   "[data-qa=\x22product-discount\x22]"]

/-- `SELECTORS.image`. -/
def image : List String :=
  ["img.media-image__image",
   ".product-detail-images img",
   "picture img",
   "[data-qa=\x22product-image\x22] img"]

end SELECTORS

/-- `trySelectors` of zara.ts lines 59-67: the matches of the first
selector with a nonempty match set. -/
def trySelectors (q : String → List Elem) : List String → Option (List Elem)
  | [] => none
  | sel :: rest =>
    let element := q sel
    if element.length > 0 then some element else trySelectors q rest

/-- `extractText` of zara.ts lines 72-76: trimmed text of the first
element of the first matching selector; the empty string is falsy and
becomes `none`. -/
def extractText (q : String → List Elem) (selectors : List String) : Option String :=
  match trySelectors q selectors with
  | none => none
  | some element =>
    match element with
    | [] => none
    | e :: _ =>
      let t := trimChars e.text
      if t = "" then none else some t

/-- A size entry (`SizeStock` of src/types): `lowStock` is `Option Bool`
because the extractor stores `lowStock || undefined`. -/
structure SizeStock where
  size : String
  available : Bool
  lowStock : Option Bool
deriving DecidableEq, Repr

/-- Processing of one primary size item, zara.ts lines 95-134: skip when
the label is empty; availability from `data-qa-action`, with the
disabled/enabled class heuristic as fallback; the entry is pushed with
`lowStock: lowStock || undefined` (so `false` becomes `none`). -/
def parseSizeItem (it : SizeItem) : Option SizeStock :=
  let sizeLabel := trimChars it.labelText
  if sizeLabel = "" then none
  else if it.action == "size-in-stock" then
    some { size := sizeLabel, available := true, lowStock := none }
  else if it.action == "size-low-on-stock" then
    some { size := sizeLabel, available := true, lowStock := some true }
  else if it.action == "size-out-of-stock" then
    some { size := sizeLabel, available := false, lowStock := none }
  else
    let isDisabled := it.disabledClass || it.unavailableClass
    some { size := sizeLabel, available := !isDisabled && it.enabledClass,
           lowStock := none }

/-- The label chain of one fallback size item, zara.ts lines 148-155:
candidates in order (main label, qualifier label, first line of the raw
item text), empty when none matches. -/
def fallbackSizeLabel (it : FallbackSizeItem) : String :=
  let l1 := trimChars it.mainLabelText
  let l2 := if l1 = "" then trimChars it.qualifierLabelText else l1
  if l2 = "" then trimChars ((strSplitOn (trimChars it.itemText) "\x0a").headD "")
  else l2

/-- Processing of one fallback size item (continued): skip when the
label chain is empty; availability from `data-qa-action` only. -/
def parseFallbackSizeItem (it : FallbackSizeItem) : Option SizeStock :=
  let sizeLabel := fallbackSizeLabel it
  if sizeLabel = "" then none
  else
    some { size := sizeLabel,
           available := it.action == "size-in-stock" || it.action == "size-low-on-stock",
           lowStock := if it.action == "size-low-on-stock" then some true else none }

/-- `extractSizes` of zara.ts lines 85-176: primary selector items when
nonempty, otherwise the fallback selector items. -/
def extractSizes (doc : ZaraDoc) : List SizeStock :=
  if doc.sizeItems.length > 0 then doc.sizeItems.filterMap parseSizeItem
  else doc.fallbackSizeItems.filterMap parseFallbackSizeItem

/-- The `src || data-src || data-lazy` truthiness chain. -/
def firstTruthy : List (Option String) → Option String
  | [] => none
  | some s :: rest => if s = "" then firstTruthy rest else some s
  | none :: rest => firstTruthy rest

/-- `extractImage` of zara.ts lines 181-200, one selector at a time. -/
def extractImageFrom (doc : ZaraDoc) : List String → Option String
  | [] => none
  | sel :: rest =>
    match doc.images sel with
    | img :: _ =>
      match firstTruthy [img.src, img.dataSrc, img.dataLazy] with
      | some src =>
        if !strContains src "placeholder" then
          if strIsPrefixOfL "//".toList src.toList then some ("https:" ++ src)
          else if strIsPrefixOfL "/".toList src.toList then
            some ("https://www.zara.com" ++ src)
          else some src
        else extractImageFrom doc rest
      | none => extractImageFrom doc rest
    | [] => extractImageFrom doc rest

/-- `extractImage` of zara.ts lines 181-200. -/
def extractImage (doc : ZaraDoc) : Option String :=
  extractImageFrom doc SELECTORS.image

/-- JavaScript `Math.round` on a rational: floor of `q + 1/2` (halves
round toward positive infinity). -/
def jsRound (q : ℚ) : Int :=
  Rat.floor (q + 1 / 2)

/-- The result of `parseZaraProduct` (a `Partial<Product>`): the fields
the extractor fills. -/
structure ParsedProduct where
  brand : String
  name : String
  currentPrice : ℚ
  oldPrice : Option ℚ
  discount : Option Int
  sizes : List SizeStock
  url : String
  imageUrl : Option String
  lastChecked : String
deriving DecidableEq, Repr

/-- `parseZaraProduct` of zara.ts lines 205-255. The capture timestamp
(`new Date().toISOString()`) is passed in as `now`. The discount falls
back to `Math.round(((oldPrice - currentPrice) / oldPrice) * 100)` when no
explicit discount parsed and both prices are truthy with old > current.
`name || 'Unknown Product'` and `currentPrice || 0` model the defaults. -/
def parseZaraProduct (doc : ZaraDoc) (url : String) (now : String) : ParsedProduct :=
  let name := extractText doc.query SELECTORS.name
  let currentPriceText := extractText doc.query SELECTORS.currentPrice
  let oldPriceText := extractText doc.query SELECTORS.oldPrice
  let discountText := extractText doc.query SELECTORS.discount
  let currentPrice := parsePrice currentPriceText
  let oldPrice := parsePrice oldPriceText
  let discount0 := parseDiscount discountText
  let discount : Option Int :=
    match discount0, currentPrice, oldPrice with
    | none, some c, some o =>
      if c ≠ 0 ∧ o ≠ 0 ∧ Rat.blt c o then some (jsRound ((o - c) / o * 100))
      else none
    | d0, _, _ => d0
  { brand := "zara",
    name := name.getD "Unknown Product",
    currentPrice := currentPrice.getD 0,
    oldPrice := oldPrice,
    discount := discount,
    sizes := extractSizes doc,
    url := url,
    imageUrl := extractImage doc,
    lastChecked := now }

/-- A stored product (the `Product` of src/types, as surfaced by the
storage layer). Timestamps are opaque strings. -/
structure Product where
  id : String
  brand : String
  name : String
  currentPrice : ℚ
  originalPrice : Option ℚ
  oldPrice : Option ℚ
  discount : Option Int
  url : String
  imageUrl : Option String
  lastChecked : String
  createdAt : String
  sizes : List SizeStock
deriving DecidableEq, Repr

/-- The input of `addProduct` (`Omit<Product, 'id' | 'createdAt'>`). -/
structure NewProduct where
  brand : String
  name : String
  currentPrice : ℚ
  originalPrice : Option ℚ
  oldPrice : Option ℚ
  discount : Option Int
  url : String
  imageUrl : Option String
  lastChecked : String
  sizes : List SizeStock
deriving DecidableEq, Repr

/-- The input of `updateProduct` (`Partial<Product>`): an outer `none`
models an absent (`undefined`) field; for nullable fields the inner
option models `null`. -/
structure ProductPatch where
  brand : Option String := none
  name : Option String := none
  currentPrice : Option ℚ := none
  originalPrice : Option (Option ℚ) := none
  oldPrice : Option (Option ℚ) := none
  discount : Option (Option Int) := none
  url : Option String := none
  imageUrl : Option (Option String) := none
  sizes : Option (List SizeStock) := none
  lastChecked : Option String := none
deriving DecidableEq, Repr

/-- A price-history row (productId, price). -/
structure PriceEntry where
  productId : String
  price : ℚ
deriving DecidableEq, Repr

/-- A stock-snapshot row (productId, sizes as captured). -/
structure StockEntry where
  productId : String
  sizes : List SizeStock
deriving DecidableEq, Repr

/-- The visible state of the storage layer: the product table, the
price-history table and the stock-snapshot table, in insertion order. -/
structure StorageState where
  products : List Product
  priceHistory : List PriceEntry
  stockHistory : List StockEntry
deriving DecidableEq, Repr

/-- The empty storage. -/
def emptyStorage : StorageState := ⟨[], [], []⟩

/-- `addPriceHistory` of src/lib/storage/db/utils.ts: appends a row. -/
def addPriceHistory (st : StorageState) (productId : String) (price : ℚ) : StorageState :=
  { st with priceHistory := st.priceHistory ++ [⟨productId, price⟩] }

/-- `addStockSnapshot` of src/lib/storage/db/stock-snapshots.ts: appends
a row with the sizes exactly as passed. -/
def addStockSnapshot (st : StorageState) (productId : String) (sizes : List SizeStock) : StorageState :=
  { st with stockHistory := st.stockHistory ++ [⟨productId, sizes⟩] }

/-- The `lowStock: s.lowStock ?? false` normalization applied when sizes
are written to the product table. -/
def normalizeStoredSize (s : SizeStock) : SizeStock :=
  { s with lowStock := some (s.lowStock.getD false) }

/-- `getProductByUrl` of src/lib/storage/db/utils.ts lines 84-92: the
query URL is normalized by dropping the query string, and the first
product whose URL starts with it is returned. -/
def getProductByUrl (st : StorageState) (url : String) : Option Product :=
  let normalizedUrl := (strSplitOn url "?").headD ""
  st.products.find? (fun p => strIsPrefixOfL normalizedUrl.toList p.url.toList)

/-- The field update of `updateProduct` (db/utils.ts lines 138-152):
string fields update only when truthy (`data.brand && ...`), the others
only when defined (`!== undefined`); `lastChecked` is always set to now;
sizes are replaced (normalized) when provided. -/
def applyPatch (old : Product) (data : ProductPatch) (now : String) : Product :=
  { id := old.id
    brand := match data.brand with
      | some b => if b = "" then old.brand else b
      | none => old.brand
    name := match data.name with
      | some n => if n = "" then old.name else n
      | none => old.name
    currentPrice := data.currentPrice.getD old.currentPrice
    originalPrice := data.originalPrice.getD old.originalPrice
    oldPrice := data.oldPrice.getD old.oldPrice
    discount := data.discount.getD old.discount
    url := match data.url with
      | some u => if u = "" then old.url else u
      | none => old.url
    imageUrl := data.imageUrl.getD old.imageUrl
    lastChecked := now
    createdAt := old.createdAt
    sizes := match data.sizes with
      | some ss => ss.map normalizeStoredSize
      | none => old.sizes }

/-- `updateProduct` of src/lib/storage/db/utils.ts lines 128-180 (the
json-store version at json-store.ts lines 100-131 appends history under
the same conditions): throws when the id is unknown; otherwise updates
the row, appends a price-history row only when a price is provided and
differs from the stored one, and appends a stock snapshot whenever sizes
are provided. -/
def updateProduct (st : StorageState) (id : String) (data : ProductPatch) (now : String) :
    Except String (Product × StorageState) :=
  match st.products.find? (fun p => p.id == id) with
  | none => .error ("Product with id " ++ id ++ " not found")
  | some oldProduct =>
    let updated := applyPatch oldProduct data now
    let st1 := { st with
      products := st.products.map (fun p => if p.id == id then updated else p) }
    let st2 :=
      match data.currentPrice with
      | some p => if p ≠ oldProduct.currentPrice then addPriceHistory st1 id p else st1
      | none => st1
    let st3 :=
      match data.sizes with
      | some ss => addStockSnapshot st2 id ss
      | none => st2
    .ok (updated, st3)

/-- The full-object patch `addProduct` hands to `updateProduct` when the
URL already exists: every field of the snapshot is defined. -/
def NewProduct.toPatch (p : NewProduct) : ProductPatch :=
  { brand := some p.brand
    name := some p.name
    currentPrice := some p.currentPrice
    originalPrice := some p.originalPrice
    oldPrice := some p.oldPrice
    discount := some p.discount
    url := some p.url
    imageUrl := some p.imageUrl
    sizes := some p.sizes
    lastChecked := some p.lastChecked }

/-- `addProduct` of src/lib/storage/db/utils.ts lines 94-126: upsert by
URL — an existing product is updated, otherwise the product is inserted
(with a fresh id and creation timestamp, passed in here) followed by an
initial price-history row and an initial stock snapshot. -/
def addProduct (st : StorageState) (product : NewProduct) (newId now : String) :
    Except String (Product × StorageState) :=
  match getProductByUrl st product.url with
  | some existingProduct => updateProduct st existingProduct.id product.toPatch now
  | none =>
    let newProduct : Product :=
      { id := newId
        brand := product.brand
        name := product.name
        currentPrice := product.currentPrice
        originalPrice := product.originalPrice
        oldPrice := product.oldPrice
        discount := product.discount
        url := product.url
        imageUrl := product.imageUrl
        lastChecked := product.lastChecked
        createdAt := now
        sizes := product.sizes.map normalizeStoredSize }
    let st1 := { st with products := st.products ++ [newProduct] }
    let st2 := addPriceHistory st1 newId newProduct.currentPrice
    let st3 := addStockSnapshot st2 newId product.sizes
    .ok (newProduct, st3)

/-- The environment of one `navigateWithStealth` call: the outcome of
`page.goto` (`.error` models a thrown exception with its message; `.ok
none` models a null response; `.ok (some s)` a response with HTTP status
`s`), and the page body at the first challenge check and at the re-check
after the settle wait. -/
structure NavEnv where
  gotoOutcome : Except String (Option Nat)
  content1 : String
  content2 : String

/-- The result record of `navigateWithStealth`. -/
structure NavResult where
  success : Bool
  status : Nat
  error : Option String
deriving DecidableEq, Repr

/-- The first challenge check, browser.ts line 217: any of the three
known markers. -/
def challengeMarkersFirst (html : String) : Bool :=
  strContains html "bm-verify" || strContains html "akam-logo" ||
    strContains html "_sec/verify"

/-- The re-check after the settle wait, browser.ts line 226: only two of
the markers are re-checked. -/
def challengeMarkersRecheck (html : String) : Bool :=
  strContains html "bm-verify" || strContains html "akam-logo"

/-- `navigateWithStealth` of src/lib/scraper/browser.ts lines 182-252:
every outcome is classified, no exception escapes. A thrown error whose
message contains `timeout` is classified TIMEOUT; a null response is a
failure with message `No response received`; HTTP 403 is AKAMAI_BLOCKED;
a challenge marker that survives the re-check is AKAMAI_CHALLENGE;
anything else is success with the response status. -/
def navigateWithStealth (env : NavEnv) : NavResult :=
  match env.gotoOutcome with
  | .error message =>
    if strContains message "timeout" then
      { success := false, status := 0, error := some "TIMEOUT" }
    else
      { success := false, status := 0, error := some message }
  | .ok none => { success := false, status := 0, error := some "No response received" }
  | .ok (some status) =>
    if status == 403 then
      { success := false, status := 403, error := some "AKAMAI_BLOCKED" }
    else if challengeMarkersFirst env.content1 then
      if challengeMarkersRecheck env.content2 then
        { success := false, status := 403, error := some "AKAMAI_CHALLENGE" }
      else { success := true, status := status, error := none }
    else { success := true, status := status, error := none }

/-- The error codes of `ScraperResult` (src/types). -/
inductive ErrorCode
  | UNKNOWN
  | AKAMAI_BLOCKED
  | AKAMAI_CHALLENGE
  | TIMEOUT
  | PARSE_ERROR
deriving DecidableEq, Repr

/-- `ScraperResult` of src/types. -/
structure ScraperResult where
  success : Bool
  error : Option String := none
  errorCode : Option ErrorCode := none
  product : Option Product := none
deriving DecidableEq, Repr

/-- Observable resource events of one scrape, in order of occurrence. -/
inductive Ev
  | browserAcquired
  | contextCreated
  | pageCreated
  | navDone
  | sessionSaved (store : Brand)
  | contextClosed
  | browserClosed
  | delayed
deriving DecidableEq, Repr

/-- A store entry of the `PARSERS` registry of src/lib/scraper/index.ts:
URL validation and the HTML parser (here over the abstracted document;
the capture timestamp is threaded as the last argument). -/
structure ParserEntry where
  isValidUrl : String → Bool
  parse : ZaraDoc → String → String → ParsedProduct

/-- The stub parser of the unimplemented stores: returns only brand and
`Not implemented`; the remaining `Partial<Product>` fields are absent,
which the orchestrator defaults to 0 / null / empty. -/
def notImplementedParse (brand : String) : ZaraDoc → String → String → ParsedProduct :=
  fun _ _ _ =>
    { brand := brand, name := "Not implemented", currentPrice := 0,
      oldPrice := none, discount := none, sizes := [], url := "",
      imageUrl := none, lastChecked := "" }

/-- `PARSERS` of src/lib/scraper/index.ts lines 14-34: the registry is
total over `Brand`; the unimplemented stores validate no URL. -/
def PARSERS : Brand → ParserEntry
  | .zara => { isValidUrl := isValidZaraUrl, parse := parseZaraProduct }
  | .bershka => { isValidUrl := fun _ => false, parse := notImplementedParse "bershka" }
  | .pullandbear =>
    { isValidUrl := fun _ => false, parse := notImplementedParse "pullandbear" }
  | .massimodutti =>
    { isValidUrl := fun _ => false, parse := notImplementedParse "massimodutti" }

/-- The environment of one `scrapeProduct` call: the outcomes of the
awaited browser steps (`getBrowser`, `createContext`, `createPage`, the
navigation inputs, `page.content` abstracted to the parsed document),
plus the fresh id and timestamp the call would generate. -/
structure ScrapeEnv where
  browserStep : Except String Unit
  contextStep : Except String Unit
  pageStep : Except String Unit
  navEnv : NavEnv
  contentStep : Except String ZaraDoc
  now : String
  newId : String

/-- The options of `scrapeProduct` (headless and timeout do not affect
the modelled behavior). -/
structure ScrapeOptions where
  saveToStorage : Bool := true

/-- The rejection result for an unrecognized store URL. -/
def rejectedUnknownStore : ScraperResult :=
  { success := false
    error := some "Unrecognized store URL. Supported stores: Zara, Bershka, Pull&Bear, Massimo Dutti"
    errorCode := some .UNKNOWN }

/-- The rejection result for an invalid product URL. -/
def rejectedInvalidUrl (store : Brand) : ScraperResult :=
  { success := false
    error := some ("Invalid " ++ store.tag ++ " product URL. Expected format: product page URL")
    errorCode := some .UNKNOWN }

/-- The result built in the catch block of `scrapeProduct`. -/
def caughtResult (message : String) : ScraperResult :=
  { success := false, error := some message, errorCode := some .UNKNOWN }

/-- The result built when navigation is not successful, index.ts lines
101-114: message defaulted when falsy, error code mapped from the
navigation error string. -/
def navFailureResult (navResult : NavResult) : ScraperResult :=
  { success := false
    error := some (match navResult.error with
      | some e => if e = "" then "Navigation failed" else e
      | none => "Navigation failed")
    errorCode := some (
      if navResult.error == some "AKAMAI_BLOCKED" then ErrorCode.AKAMAI_BLOCKED
      else if navResult.error == some "AKAMAI_CHALLENGE" then ErrorCode.AKAMAI_CHALLENGE
      else if navResult.error == some "TIMEOUT" then ErrorCode.TIMEOUT
      else ErrorCode.UNKNOWN) }

/-- The parse-failure result of index.ts lines 137-141. -/
def parseErrorResult : ScraperResult :=
  { success := false
    error := some "Could not extract product data. The page structure may have changed."
    errorCode := some .PARSE_ERROR }

/-- The full product object built by the orchestrator, index.ts lines
149-161: defaults by JS truthiness (`|| 0`, `|| null`, `|| []`);
`originalPrice` is absent from the Zara parse result, hence null. -/
def buildFullProduct (store : Brand) (productData : ParsedProduct) (url now : String) :
    NewProduct :=
  { brand := store.tag
    name := productData.name
    currentPrice := productData.currentPrice
    originalPrice := none
    oldPrice := match productData.oldPrice with
      | some x => if x = 0 then none else some x
      | none => none
    discount := match productData.discount with
      | some d => if d = 0 then none else some d
      | none => none
    sizes := productData.sizes
    url := url
    imageUrl := match productData.imageUrl with
      | some s => if s = "" then none else some s
      | none => none
    lastChecked := now }

/-- The `{...fullProduct, id: 'temp', createdAt: now}` product returned
when storage is skipped. -/
def tempProduct (p : NewProduct) (now : String) : Product :=
  { id := "temp", brand := p.brand, name := p.name,
    currentPrice := p.currentPrice, originalPrice := p.originalPrice,
    oldPrice := p.oldPrice, discount := p.discount, url := p.url,
    imageUrl := p.imageUrl, lastChecked := p.lastChecked,
    createdAt := now, sizes := p.sizes }

/-- The output of one scrape: the result, the storage state after the
call, and the resource events in order. -/
structure ScrapeOut where
  result : ScraperResult
  state : StorageState
  trace : List Ev
deriving Repr

/-- `scrapeProduct` of src/lib/scraper/index.ts lines 42-202. The
branches mirror the source: store detection and URL validation reject
before any browser step; a navigation failure closes the context (saving
the session) before returning, and the `finally` block closes it again
because the variable is not cleared on that path; a parse failure
returns with the context still open, so only the `finally` close runs;
the success path closes the context, clears the variable, then persists.
The registry lookup `PARSERS[store]` is total, so the `!parser` guard of
lines 68-74 is unreachable and not modelled. Exceptions thrown by the
awaited steps land in the catch block (`caughtResult`). -/
def scrapeProduct (env : ScrapeEnv) (url : String) (opts : ScrapeOptions)
    (st : StorageState) : ScrapeOut :=
  match detectStore url with
  | none => ⟨rejectedUnknownStore, st, []⟩
  | some store =>
    let parser := PARSERS store
    if parser.isValidUrl url then
      match env.browserStep with
      | .error msg => ⟨caughtResult msg, st, []⟩
      | .ok _ =>
        match env.contextStep with
        | .error msg => ⟨caughtResult msg, st, [.browserAcquired]⟩
        | .ok _ =>
          let closeEvs : List Ev := [.sessionSaved store, .contextClosed]
          match env.pageStep with
          | .error msg => ⟨caughtResult msg, st, [.browserAcquired, .contextCreated] ++ closeEvs⟩
          | .ok _ =>
            let navResult := navigateWithStealth env.navEnv
            let pre : List Ev := [.browserAcquired, .contextCreated, .pageCreated, .navDone]
            if navResult.success then
              match env.contentStep with
              | .error msg => ⟨caughtResult msg, st, pre ++ closeEvs⟩
              | .ok doc =>
                let productData := parser.parse doc url env.now
                if productData.name = "" ∨ productData.name = "Unknown Product" then
                  ⟨parseErrorResult, st, pre ++ closeEvs⟩
                else
                  let fullProduct := buildFullProduct store productData url env.now
                  if opts.saveToStorage then
                    match getProductByUrl st url with
                    | some existingProduct =>
                      match updateProduct st existingProduct.id fullProduct.toPatch env.now with
                      | .ok res =>
                        ⟨{ success := true, product := some res.1 }, res.2, pre ++ closeEvs⟩
                      | .error msg => ⟨caughtResult msg, st, pre ++ closeEvs⟩
                    | none =>
                      match addProduct st fullProduct env.newId env.now with
                      | .ok res =>
                        ⟨{ success := true, product := some res.1 }, res.2, pre ++ closeEvs⟩
                      | .error msg => ⟨caughtResult msg, st, pre ++ closeEvs⟩
                  else
                    ⟨{ success := true, product := some (tempProduct fullProduct env.now) },
                      st, pre ++ closeEvs⟩
            else
              ⟨navFailureResult navResult, st, pre ++ closeEvs ++ closeEvs⟩
    else ⟨rejectedInvalidUrl store, st, []⟩

/-- The loop body of `scrapeProducts`, index.ts lines 223-234: one scrape
per URL in order, threading the storage state, with a randomized delay
between consecutive items. -/
def scrapeBatchGo (envs : Nat → ScrapeEnv) (opts : ScrapeOptions) :
    Nat → List String → StorageState → List ScraperResult × StorageState × List Ev
  | _, [], st => ([], st, [])
  | i, url :: rest, st =>
    let out := scrapeProduct (envs i) url opts st
    let delayEvs : List Ev := if rest.isEmpty then [] else [.delayed]
    let next := scrapeBatchGo envs opts (i + 1) rest out.state
    (out.result :: next.1, next.2.1, out.trace ++ delayEvs ++ next.2.2)

/-- `scrapeProducts` of src/lib/scraper/index.ts lines 210-243: the batch
runs sequentially and the shared browser is closed after the loop. -/
def scrapeProducts (envs : Nat → ScrapeEnv) (urls : List String) (opts : ScrapeOptions)
    (st : StorageState) : List ScraperResult × StorageState × List Ev :=
  let run := scrapeBatchGo envs opts 0 urls st
  (run.1, run.2.1, run.2.2 ++ [.browserClosed])

/-! Concrete fixtures used by the theorems below. -/

/-- A document in which no selector matches anything. -/
def emptyDoc : ZaraDoc :=
  { query := fun _ => [], sizeItems := [], fallbackSizeItems := [],
    images := fun _ => [] }

/-- A benign environment: every step succeeds, the navigation returns
HTTP 200 with an unremarkable body, and the page parses to `emptyDoc`. -/
def okEnv : ScrapeEnv :=
  { browserStep := .ok (), contextStep := .ok (), pageStep := .ok (),
    navEnv := { gotoOutcome := .ok (some 200), content1 := "", content2 := "" },
    contentStep := .ok emptyDoc, now := "t0", newId := "id0" }

/-- The snapshot used to exercise the upsert path twice. -/
def demoSnapshot : NewProduct :=
  { brand := "zara", name := "Casaco", currentPrice := 10, originalPrice := none,
    oldPrice := none, discount := none,
    url := "https://www.zara.com/pt/casaco-p1.html",
    imageUrl := none, lastChecked := "t0",
    sizes := [{ size := "M", available := true, lowStock := none }] }

/-- Storage after the first upsert of `demoSnapshot`. -/
def demoUpsertState1 : StorageState :=
  match addProduct emptyStorage demoSnapshot "id1" "t1" with
  | .ok res => res.2
  | .error _ => emptyStorage

/-- Storage after upserting the identical `demoSnapshot` a second time. -/
def demoUpsertState2 : StorageState :=
  match addProduct demoUpsertState1 demoSnapshot "id2" "t2" with
  | .ok res => res.2
  | .error _ => demoUpsertState1

/-- C1: upserting the identical snapshot twice is claimed to append no
new price-history entry and no new stock-history entry on the second
call. The price-history half holds, but the second call (which goes
through `updateProduct` on the existing record) appends a stock snapshot
whenever sizes are provided — even though they are identical — so the
stock-history table grows from 1 to 2 rows while the product table keeps
a single row. -/
theorem upsert_second_identical_snapshot_appends_stock_entry :
    demoUpsertState1.priceHistory.length = 1 ∧
    demoUpsertState1.stockHistory.length = 1 ∧
    demoUpsertState2.priceHistory.length = 1 ∧
    demoUpsertState2.stockHistory.length = 2 ∧
    demoUpsertState2.products.length = 1 := by
  decide

/-- C9: `parsePrice` is total and handles the documented formats:
`"19,99 EUR"` and `"€19.99"` both give 19.99; the empty string and null
give null; the European thousands convention `"1.234,56"` gives 1234.56;
the simple comma decimal `"19,99"` and the plain decimal `"12.5"` parse;
whitespace and currency symbols are stripped; any input whose cleaned
form fails to parse as a number gives null. -/
theorem parsePrice_spec :
    parsePrice (some "19,99 EUR") = some (mkRat 1999 100) ∧
    parsePrice (some "€19.99") = some (mkRat 1999 100) ∧
    parsePrice (some "") = none ∧
    parsePrice none = none ∧
    parsePrice (some "1.234,56") = some (mkRat 123456 100) ∧
    parsePrice (some "19,99") = some (mkRat 1999 100) ∧
    parsePrice (some " 19.99 € ") = some (mkRat 1999 100) ∧
    parsePrice (some "12.5") = some (mkRat 125 10) ∧
    parsePrice (some "no price") = none ∧
    (∀ s : String, jsParseFloat (priceCleaned s) = none → parsePrice (some s) = none) := by
  refine ⟨by decide, by decide, by decide, by decide, by decide, by decide,
    by decide, by decide, by decide, ?_⟩
  intro s h
  simp only [parsePrice]
  split
  · rfl
  · rw [h]

/-- Witness for C9: a concrete unparseable input where the cleaned form
fails, instantiating the universally quantified clause. -/
theorem parsePrice_spec_witness :
    jsParseFloat (priceCleaned "gratis") = none ∧ parsePrice (some "gratis") = none :=
  ⟨by decide, parsePrice_spec.2.2.2.2.2.2.2.2.2 "gratis" (by decide)⟩

/-- C10: a scrape whose result is not a success leaves the storage state
untouched — every rejection, navigation failure, parse failure and
caught exception returns before any call into `addProduct` or
`updateProduct`. -/
theorem scrapeProduct_failure_preserves_storage (env : ScrapeEnv) (url : String)
    (opts : ScrapeOptions) (st : StorageState)
    (h : (scrapeProduct env url opts st).result.success = false) :
    (scrapeProduct env url opts st).state = st := by
  have key : (scrapeProduct env url opts st).result.success = true ∨
      (scrapeProduct env url opts st).state = st := by
    unfold scrapeProduct
    dsimp only
    repeat' split
    all_goals first
      | exact Or.inl rfl
      | exact Or.inr rfl
  rcases key with hs | hst
  · rw [hs] at h
    cases h
  · exact hst

/-- Witness for C10: a URL of an unknown store fails, and the theorem
yields an unchanged storage state. -/
theorem scrapeProduct_failure_preserves_storage_witness :
    (scrapeProduct okEnv "https://nowhere.example/a" {} emptyStorage).state = emptyStorage :=
  scrapeProduct_failure_preserves_storage okEnv "https://nowhere.example/a" {}
    emptyStorage (by decide)

/-- C7: a URL whose store is not detected, and a URL whose adapter
rejects it (in particular any URL routed to the unimplemented stores
bershka, pullandbear and massimodutti, whose validators are constantly
false), produce the terminal rejection result with unchanged storage and
an empty resource trace — no browser acquisition, no context creation,
no navigation. -/
theorem rejected_before_network :
    (∀ (env : ScrapeEnv) (url : String) (opts : ScrapeOptions) (st : StorageState),
      detectStore url = none →
      scrapeProduct env url opts st = ⟨rejectedUnknownStore, st, []⟩) ∧
    (∀ (env : ScrapeEnv) (url : String) (opts : ScrapeOptions) (st : StorageState)
      (store : Brand),
      detectStore url = some store →
      (PARSERS store).isValidUrl url = false →
      scrapeProduct env url opts st = ⟨rejectedInvalidUrl store, st, []⟩) ∧
    rejectedUnknownStore.success = false ∧
    (∀ store : Brand, (rejectedInvalidUrl store).success = false) ∧
    (∀ url : String,
      (PARSERS Brand.bershka).isValidUrl url = false ∧
      (PARSERS Brand.pullandbear).isValidUrl url = false ∧
      (PARSERS Brand.massimodutti).isValidUrl url = false) := by
  refine ⟨?_, ?_, rfl, fun _ => rfl, fun _ => ⟨rfl, rfl, rfl⟩⟩
  · intro env url opts st h
    unfold scrapeProduct
    rw [h]
  · intro env url opts st store h hv
    unfold scrapeProduct
    rw [h]
    simp [hv]

/-- Witness for C7: a URL outside every known store is rejected, and a
bershka URL is rejected by the constant-false validator. -/
theorem rejected_before_network_witness :
    scrapeProduct okEnv "https://nowhere.example/a" {} emptyStorage =
      ⟨rejectedUnknownStore, emptyStorage, []⟩ ∧
    scrapeProduct okEnv "https://www.bershka.com/pt/item.html" {} emptyStorage =
      ⟨rejectedInvalidUrl Brand.bershka, emptyStorage, []⟩ :=
  ⟨rejected_before_network.1 okEnv "https://nowhere.example/a" {} emptyStorage (by decide),
   rejected_before_network.2.1 okEnv "https://www.bershka.com/pt/item.html" {}
     emptyStorage Brand.bershka (by decide) rfl⟩

/-- C3: once a scrape attempt reaches navigation (browser, context and
page steps all succeeded), the per-site session is saved via the Session
Store before the attempt finishes, on every path — success, navigation
failure (including BLOCKED and CHALLENGE), content exception, parse
failure and storage outcome alike. -/
theorem scrapeProduct_saves_session_after_navigation (env : ScrapeEnv) (url : String)
    (opts : ScrapeOptions) (st : StorageState) (store : Brand)
    (hdetect : detectStore url = some store)
    (hvalid : (PARSERS store).isValidUrl url = true)
    (hb : env.browserStep = .ok ())
    (hc : env.contextStep = .ok ())
    (hp : env.pageStep = .ok ()) :
    Ev.sessionSaved store ∈ (scrapeProduct env url opts st).trace := by
  unfold scrapeProduct
  rw [hdetect]
  dsimp only
  rw [hvalid, hb, hc, hp]
  simp only [if_true]
  repeat' split
  all_goals simp

/-- Witness for C3: a navigation blocked with HTTP 403 on a valid Zara
URL still records a session save in the trace. -/
theorem scrapeProduct_saves_session_after_navigation_witness :
    Ev.sessionSaved Brand.zara ∈
      (scrapeProduct
        { browserStep := .ok (), contextStep := .ok (), pageStep := .ok (),
          navEnv := { gotoOutcome := .ok (some 403), content1 := "", content2 := "" },
          contentStep := .ok emptyDoc, now := "t0", newId := "id0" }
        "https://www.zara.com/pt/casaco-p02753752.html" {} emptyStorage).trace :=
  scrapeProduct_saves_session_after_navigation _ _ {} emptyStorage Brand.zara
    (by decide) (by decide) rfl rfl rfl

/-- Helper: with storage persistence off, a scrape never changes the
storage state (used to state batch independence of results). -/
theorem scrapeProduct_state_of_no_save (env : ScrapeEnv) (url : String)
    (st : StorageState) :
    (scrapeProduct env url { saveToStorage := false } st).state = st := by
  unfold scrapeProduct
  dsimp only
  repeat' split
  all_goals first | rfl | simp_all

/-- Helper: the batch loop yields one result per remaining URL. -/
theorem scrapeBatchGo_length (envs : Nat → ScrapeEnv) (opts : ScrapeOptions) :
    ∀ (urls : List String) (i : Nat) (st : StorageState),
      (scrapeBatchGo envs opts i urls st).1.length = urls.length := by
  intro urls
  induction urls with
  | nil => intro i st; rfl
  | cons u rest ih =>
    intro i st
    simp [scrapeBatchGo, ih]

/-- Helper: with storage persistence off, the batch results are exactly
the independent per-URL results, indexed in input order. -/
theorem scrapeBatchGo_results_no_save (envs : Nat → ScrapeEnv) (st : StorageState) :
    ∀ (urls : List String) (i : Nat),
      (scrapeBatchGo envs { saveToStorage := false } i urls st).1 =
        (List.enumFrom i urls).map
          (fun p => (scrapeProduct (envs p.1) p.2 { saveToStorage := false } st).result) := by
  intro urls
  induction urls with
  | nil => intro i; rfl
  | cons u rest ih =>
    intro i
    simp only [scrapeBatchGo, List.enumFrom, List.map_cons]
    rw [scrapeProduct_state_of_no_save, ih]

/-- C2: a batch scrape returns exactly one result per input URL; the
shared browser close is the final resource event regardless of
individual outcomes; and with persistence off the i-th result is
precisely the result of scraping the i-th URL in its own environment, in
input order — a failing item cannot abort or alter the rest. -/
theorem scrapeProducts_results_spec (envs : Nat → ScrapeEnv) (urls : List String)
    (opts : ScrapeOptions) (st : StorageState) :
    (scrapeProducts envs urls opts st).1.length = urls.length ∧
    (scrapeProducts envs urls opts st).2.2.getLast? = some Ev.browserClosed ∧
    (opts.saveToStorage = false →
      (scrapeProducts envs urls opts st).1 =
        urls.enum.map (fun p => (scrapeProduct (envs p.1) p.2 opts st).result)) := by
  refine ⟨?_, ?_, ?_⟩
  · simpa [scrapeProducts] using scrapeBatchGo_length envs opts urls 0 st
  · simp [scrapeProducts, List.getLast?_concat]
  · intro hsave
    have hopts : opts = { saveToStorage := false } := by
      cases opts
      simp_all
    subst hopts
    simpa [scrapeProducts, List.enum] using scrapeBatchGo_results_no_save envs st urls 0

/-- An environment whose browser launch throws, exercising the
catastrophic-failure case of the batch. -/
def throwingEnv : ScrapeEnv :=
  { browserStep := .error "Unexpected crash", contextStep := .ok (), pageStep := .ok (),
    navEnv := { gotoOutcome := .ok (some 200), content1 := "", content2 := "" },
    contentStep := .ok emptyDoc, now := "t0", newId := "id0" }

/-- The per-index environments of the batch witness: the second attempt
throws, the others proceed. -/
def batchEnvs : Nat → ScrapeEnv :=
  fun i => if i == 1 then throwingEnv else okEnv

/-- The three URLs of the batch witness. -/
def batchUrls : List String :=
  ["https://www.zara.com/pt/a-p1.html",
   "https://www.zara.com/pt/b-p2.html",
   "https://www.zara.com/pt/c-p3.html"]

/-- Witness for C2: three URLs where the second attempt throws still
yield three results in input order with the browser closed at the end. -/
theorem scrapeProducts_results_spec_witness :
    (scrapeProducts batchEnvs batchUrls { saveToStorage := false } emptyStorage).1.length = 3 ∧
    (scrapeProducts batchEnvs batchUrls { saveToStorage := false }
      emptyStorage).2.2.getLast? = some Ev.browserClosed ∧
    (scrapeProducts batchEnvs batchUrls { saveToStorage := false } emptyStorage).1 =
      batchUrls.enum.map
        (fun p => (scrapeProduct (batchEnvs p.1) p.2 { saveToStorage := false }
          emptyStorage).result) := by
  have h := scrapeProducts_results_spec batchEnvs batchUrls { saveToStorage := false }
    emptyStorage
  exact ⟨h.1, h.2.1, h.2.2 rfl⟩

/-- C8: every size entry produced by the Zara size extractor — through
the primary `data-qa-action` branch, the structural disabled/enabled
heuristic, or the fallback selectors — satisfies
`lowStock = true → available = true`. -/
theorem extractSizes_lowStock_implies_available (doc : ZaraDoc) (s : SizeStock)
    (hmem : s ∈ extractSizes doc) (hlow : s.lowStock = some true) :
    s.available = true := by
  unfold extractSizes at hmem
  split at hmem
  · obtain ⟨it, -, heq⟩ := List.mem_filterMap.mp hmem
    unfold parseSizeItem at heq
    dsimp only at heq
    repeat' split at heq
    any_goals simp_all
    all_goals subst heq
    all_goals simp_all
  · obtain ⟨it, -, heq⟩ := List.mem_filterMap.mp hmem
    unfold parseFallbackSizeItem at heq
    dsimp only at heq
    split at heq
    · exact absurd heq (by simp)
    · rw [Option.some_inj] at heq
      subst heq
      dsimp only at hlow ⊢
      split at hlow
      · simp_all
      · exact absurd hlow (by simp)

/-- A document whose only size item is flagged low on stock. -/
def lowStockDoc : ZaraDoc :=
  { query := fun _ => [],
    sizeItems := [{ labelText := "M", action := "size-low-on-stock",
                    disabledClass := false, unavailableClass := false,
                    enabledClass := false }],
    fallbackSizeItems := [], images := fun _ => [] }

/-- Witness for C8: the low-stock entry extracted from `lowStockDoc` is
available. -/
theorem extractSizes_lowStock_implies_available_witness :
    ({ size := "M", available := true, lowStock := some true } : SizeStock) ∈
      extractSizes lowStockDoc ∧
    ({ size := "M", available := true, lowStock := some true } : SizeStock).available = true :=
  ⟨by decide,
   extractSizes_lowStock_implies_available lowStockDoc _ (by decide) (by decide)⟩

/-- C5: when no candidate name selector matches, the Zara extractor
returns the sentinel name `Unknown Product` (it is a total function), and
any scrape whose parsed name is empty or equal to the sentinel returns a
non-success result with error code PARSE_ERROR. -/
theorem sentinel_name_gives_parse_error :
    (∀ (doc : ZaraDoc) (url now : String),
      extractText doc.query SELECTORS.name = none →
      (parseZaraProduct doc url now).name = "Unknown Product") ∧
    (∀ (env : ScrapeEnv) (url : String) (opts : ScrapeOptions) (st : StorageState)
      (store : Brand) (doc : ZaraDoc),
      detectStore url = some store →
      (PARSERS store).isValidUrl url = true →
      env.browserStep = .ok () →
      env.contextStep = .ok () →
      env.pageStep = .ok () →
      (navigateWithStealth env.navEnv).success = true →
      env.contentStep = .ok doc →
      (((PARSERS store).parse doc url env.now).name = "" ∨
        ((PARSERS store).parse doc url env.now).name = "Unknown Product") →
      (scrapeProduct env url opts st).result.success = false ∧
      (scrapeProduct env url opts st).result.errorCode = some ErrorCode.PARSE_ERROR) := by
  constructor
  · intro doc url now h
    simp [parseZaraProduct, h]
  · intro env url opts st store doc hdetect hvalid hb hc hp hnav hcontent hname
    unfold scrapeProduct
    rw [hdetect]
    dsimp only
    rw [hvalid, hb, hc, hp, hnav, hcontent]
    simp only [if_true]
    rw [if_pos hname]
    exact ⟨rfl, rfl⟩

/-- Witness for C5: the empty document parses to the sentinel name, and
a scrape of a valid Zara URL whose page is the empty document fails with
PARSE_ERROR. -/
theorem sentinel_name_gives_parse_error_witness :
    (parseZaraProduct emptyDoc "u" "t").name = "Unknown Product" ∧
    (scrapeProduct okEnv "https://www.zara.com/pt/casaco-p02753752.html" {}
      emptyStorage).result.errorCode = some ErrorCode.PARSE_ERROR :=
  ⟨sentinel_name_gives_parse_error.1 emptyDoc "u" "t" (by decide),
   (sentinel_name_gives_parse_error.2 okEnv "https://www.zara.com/pt/casaco-p02753752.html"
     {} emptyStorage Brand.zara emptyDoc (by decide) (by decide) rfl rfl rfl
     (by decide) rfl (Or.inr (by decide))).2⟩

/-- A navigation whose body carries the known challenge marker
`_sec/verify` both at the first check and at the re-check. -/
def secVerifyEnv : NavEnv :=
  { gotoOutcome := .ok (some 200),
    content1 := "<html>_sec/verify</html>",
    content2 := "<html>_sec/verify</html>" }

/-- Counterexample for C4: a response body containing the known
challenge marker `_sec/verify` that still contains it after the settle
wait is classified a success, not CHALLENGE — the re-check only looks
for `bm-verify` and `akam-logo`. -/
theorem navigateWithStealth_secverify_counterexample :
    challengeMarkersFirst secVerifyEnv.content1 = true ∧
    challengeMarkersFirst secVerifyEnv.content2 = true ∧
    (navigateWithStealth secVerifyEnv).success = true ∧
    (navigateWithStealth secVerifyEnv).error = none := by
  decide

/-- C4 (amended): `navigateWithStealth` is total and classifies every
outcome: a thrown navigation error whose message contains `timeout` is
TIMEOUT; any other thrown error is a failure carrying its message; a
null response is a failure with `No response received`; HTTP 403 is
BLOCKED; a body with a challenge marker whose re-checked body still
contains `bm-verify` or `akam-logo` is CHALLENGE; every other navigation
is a success with the response status (in particular one whose only
surviving marker is `_sec/verify` at the re-check). -/
theorem navigateWithStealth_classification (env : NavEnv) :
    (∀ msg, env.gotoOutcome = .error msg → strContains msg "timeout" = true →
      navigateWithStealth env = { success := false, status := 0, error := some "TIMEOUT" }) ∧
    (∀ msg, env.gotoOutcome = .error msg → strContains msg "timeout" = false →
      navigateWithStealth env = { success := false, status := 0, error := some msg }) ∧
    (env.gotoOutcome = .ok none →
      navigateWithStealth env =
        { success := false, status := 0, error := some "No response received" }) ∧
    (env.gotoOutcome = .ok (some 403) →
      navigateWithStealth env =
        { success := false, status := 403, error := some "AKAMAI_BLOCKED" }) ∧
    (∀ status, env.gotoOutcome = .ok (some status) → status ≠ 403 →
      challengeMarkersFirst env.content1 = true →
      challengeMarkersRecheck env.content2 = true →
      navigateWithStealth env =
        { success := false, status := 403, error := some "AKAMAI_CHALLENGE" }) ∧
    (∀ status, env.gotoOutcome = .ok (some status) → status ≠ 403 →
      (challengeMarkersFirst env.content1 = false ∨
        challengeMarkersRecheck env.content2 = false) →
      navigateWithStealth env = { success := true, status := status, error := none }) := by
  refine ⟨?_, ?_, ?_, ?_, ?_, ?_⟩
  · intro msg h ht
    simp [navigateWithStealth, h, ht]
  · intro msg h ht
    simp [navigateWithStealth, h, ht]
  · intro h
    simp [navigateWithStealth, h]
  · intro h
    simp [navigateWithStealth, h]
  · intro status h hne hm1 hm2
    simp [navigateWithStealth, h, hne, hm1, hm2]
  · intro status h hne hm
    rcases hm with hm | hm
    · simp [navigateWithStealth, h, hne, hm]
    · simp only [navigateWithStealth, h]
      rw [if_neg (by simpa using hne)]
      split
      · rw [hm]
        simp
      · rfl

/-- Witness for C4: the theorem applied to a 403 response yields the
BLOCKED classification. -/
theorem navigateWithStealth_classification_witness :
    navigateWithStealth { gotoOutcome := .ok (some 403), content1 := "", content2 := "" } =
      { success := false, status := 403, error := some "AKAMAI_BLOCKED" } :=
  (navigateWithStealth_classification
    { gotoOutcome := .ok (some 403), content1 := "", content2 := "" }).2.2.2.1 rfl

/-- A page exposing an explicit discount of 5% next to prices 50 and 100
(which imply a 50% discount). -/
def conflictDoc : ZaraDoc :=
  { query := fun sel =>
      if sel == ".price-current__amount" then [{ text := "50,00 €" }]
      else if sel == ".price-old__amount" then [{ text := "100,00 €" }]
      else if sel == ".price-current__discount-percentage" then [{ text := "-5%" }]
      else [],
    sizeItems := [], fallbackSizeItems := [], images := fun _ => [] }

/-- Counterexample for C6: in the extraction result of `conflictDoc` the
reference price (100) and current price (50) are both present with
reference > current, yet the discount is the explicit 5 — not within ±1
of the derived `round((100-50)/100*100) = 50`. -/
theorem discount_explicit_conflict_counterexample :
    (parseZaraProduct conflictDoc "u" "t").oldPrice = some (mkRat 100 1) ∧
    (parseZaraProduct conflictDoc "u" "t").currentPrice = mkRat 50 1 ∧
    Rat.blt (mkRat 50 1) (mkRat 100 1) = true ∧
    (parseZaraProduct conflictDoc "u" "t").discount = some 5 ∧
    jsRound ((mkRat 100 1 - mkRat 50 1) / mkRat 100 1 * 100) = 50 ∧
    ¬((5 - 50 : Int).natAbs ≤ 1) := by
  refine ⟨by decide, by decide, by decide, by decide, ?_, by decide⟩
  with_unfolding_all decide

/-- C6 (amended): an explicit parseable discount is returned in
preference to the derived one (even when inconsistent with the prices);
the derived value — `round((reference-current)/reference*100)`, hence
trivially within ±1 of itself — is present exactly when no explicit
discount parses, both prices are present and truthy (nonzero), and
reference > current. -/
theorem discount_reconciliation (doc : ZaraDoc) (url now : String) :
    (∀ d : Int, parseDiscount (extractText doc.query SELECTORS.discount) = some d →
      (parseZaraProduct doc url now).discount = some d) ∧
    (∀ c o : ℚ, parseDiscount (extractText doc.query SELECTORS.discount) = none →
      parsePrice (extractText doc.query SELECTORS.currentPrice) = some c → c ≠ 0 →
      parsePrice (extractText doc.query SELECTORS.oldPrice) = some o → o ≠ 0 →
      Rat.blt c o = true →
      (parseZaraProduct doc url now).discount = some (jsRound ((o - c) / o * 100)) ∧
      (∀ d : Int, (parseZaraProduct doc url now).discount = some d →
        (d - jsRound ((o - c) / o * 100)).natAbs ≤ 1)) := by
  constructor
  · intro d h
    simp only [parseZaraProduct]
    rw [h]
  · intro c o hd hc hc0 ho ho0 hlt
    have hmain : (parseZaraProduct doc url now).discount =
        some (jsRound ((o - c) / o * 100)) := by
      simp only [parseZaraProduct]
      rw [hd, hc, ho]
      simp [hc0, ho0, hlt]
    refine ⟨hmain, ?_⟩
    intro d hdd
    rw [hmain, Option.some_inj] at hdd
    subst hdd
    simp

/-- A page exposing no discount text next to prices 80 and 100. -/
def derivedDoc : ZaraDoc :=
  { query := fun sel =>
      if sel == ".price-current__amount" then [{ text := "80,00 €" }]
      else if sel == ".price-old__amount" then [{ text := "100,00 €" }]
      else [],
    sizeItems := [], fallbackSizeItems := [], images := fun _ => [] }

/-- Witness for C6: the derived discount on `derivedDoc`, and the
explicit discount taking preference on `conflictDoc`. -/
theorem discount_reconciliation_witness :
    (parseZaraProduct derivedDoc "u" "t").discount =
      some (jsRound ((mkRat 100 1 - mkRat 80 1) / mkRat 100 1 * 100)) ∧
    (parseZaraProduct conflictDoc "u" "t").discount = some 5 :=
  ⟨((discount_reconciliation derivedDoc "u" "t").2 (mkRat 80 1) (mkRat 100 1)
      (by decide) (by decide) (by decide) (by decide) (by decide) (by decide)).1,
   (discount_reconciliation conflictDoc "u" "t").1 5 (by decide)⟩
